import Mathlib

/-!
# Verification of the Technical-SEO-Audit-Automation repository

Shallow embedding of the repository's Python sources:

* `seo_audit_automation.py` — the `SEOAuditAutomation` class: CSV loading,
  the eleven issue-detection checks, per-bucket sorting and the summary.
* `workflow.py` — the Excel report sheet construction of `generate_excel_report`.
* `screaming_frog_api.py` — the `wait_for_crawl_completion` polling loop.

Modelling conventions:

* A pandas `DataFrame` is a list of named columns together with rows given as
  association lists from column name to `Cell`.  A `Cell` is `na` (pandas NaN),
  a string, or a number (modelled as `ℚ`; the numeric columns the checks touch
  hold small integers/decimals, whose float comparisons agree with `ℚ`).
* Accessing `df[col]` for a column absent from `df.columns` raises a pandas
  `KeyError`; fallible code is therefore modelled in `Except String`, where the
  error value names the missing column.
* Python `float` division of the small catalog integers is modelled by exact
  division in `ℚ`; all catalog ratios are far apart relative to double
  precision, so float comparisons agree with the rational ones.
* Python's `sorted(xs, key=k, reverse=True)` (a stable descending sort) is
  modelled by the structurally recursive stable insertion sort `sortDescBy`.
* Wall-clock values (the `date` summary field, report timestamps) are outside
  the embedding and are omitted from the modelled summary.
-/

namespace SEOAudit

/-- A single table cell: pandas NaN, a string value, or a numeric value. -/
inductive Cell where
  | na : Cell
  | str (s : String) : Cell
  | num (q : ℚ) : Cell
deriving DecidableEq

/-- One table row: an association list from column name to cell value. -/
abbrev Row := List (String × Cell)

/-- A pandas DataFrame: the ordered list of column names and the rows in file order. -/
structure DataFrame where
  columns : List String
  rows : List Row
deriving DecidableEq

/-- `self.data`: the loaded tables keyed by logical export name. -/
abbrev Data := List (String × DataFrame)

/-- Value of column `c` in row `r` (`na` when the row has no entry for `c`). -/
def cellAt (r : Row) (c : String) : Cell := (List.lookup c r).getD Cell.na

/-- pandas `Series.between lo hi` (inclusive): true only for numeric cells in range;
NaN compares false. -/
def cellBetween (x : Cell) (lo hi : ℚ) : Bool :=
  match x with
  | Cell.num q => decide (lo ≤ q) && decide (q ≤ hi)
  | _ => false

/-- pandas `series > bound`: true only for numeric cells above the bound; NaN is false. -/
def cellGtNum (x : Cell) (bound : ℚ) : Bool :=
  match x with
  | Cell.num q => decide (bound < q)
  | _ => false

/-- pandas `isna`. -/
def cellIsNa (x : Cell) : Bool :=
  match x with
  | Cell.na => true
  | _ => false

/-- pandas `series.str.len() > bound`: non-string cells yield NaN, which compares false. -/
def cellStrLenGt (x : Cell) (bound : Nat) : Bool :=
  match x with
  | Cell.str s => decide (bound < s.length)
  | _ => false

/-! ## Stable descending sort

Model of Python's `sorted(xs, key=key, reverse=True)`: a stable insertion
sort placing each element after all earlier elements with a `≥` key. -/

/-- Insert `a` into `l` (all of whose elements precede `a` in the original list),
keeping `a` after nothing: `a` goes in front of the first element whose key is `≤ key a`. -/
def insertDescBy {α : Type*} {β : Type*} [LinearOrder β] (key : α → β) (a : α) :
    List α → List α
  | [] => [a]
  | b :: t => if key b ≤ key a then a :: b :: t else b :: insertDescBy key a t

/-- Stable descending sort by `key`: the model of `sorted(xs, key=key, reverse=True)`. -/
def sortDescBy {α : Type*} {β : Type*} [LinearOrder β] (key : α → β) :
    List α → List α
  | [] => []
  | a :: t => insertDescBy key a (sortDescBy key t)

/-! ## Rule catalog and issue records (`seo_audit_automation.py`) -/

/-- One entry of the `ISSUE_SCORES` class attribute. -/
structure Score where
  impact : Nat
  effort : Nat
  category : String
deriving DecidableEq

/-- The `ISSUE_SCORES` class attribute of `SEOAuditAutomation`. -/
def ISSUE_SCORES : List (String × Score) :=
  [ ("broken_links", ⟨10, 5, "critical"⟩),
    ("server_errors", ⟨10, 6, "critical"⟩),
    ("redirect_chains", ⟨9, 4, "critical"⟩),
    ("duplicate_titles", ⟨8, 3, "critical"⟩),
    ("missing_meta_descriptions", ⟨7, 2, "high"⟩),
    ("missing_h1", ⟨7, 2, "high"⟩),
    ("duplicate_content", ⟨8, 6, "high"⟩),
    ("slow_pages", ⟨7, 7, "high"⟩),
    ("title_too_long", ⟨5, 2, "medium"⟩),
    ("description_too_long", ⟨5, 2, "medium"⟩),
    ("low_word_count", ⟨6, 5, "medium"⟩),
    ("missing_alt_text", ⟨5, 4, "medium"⟩),
    ("multiple_h1", ⟨3, 2, "low"⟩),
    ("missing_meta_keywords", ⟨2, 1, "low"⟩),
    ("excessive_outlinks", ⟨3, 4, "low"⟩),
    ("low_text_html_ratio", ⟨3, 5, "low"⟩) ]

/-- `ISSUE_SCORES[key]` (every key the checks use is present in the catalog). -/
def scoreOf (k : String) : Score := (List.lookup k ISSUE_SCORES).getD ⟨0, 1, ""⟩

/-- The issue dictionaries appended to `self.issues[...]` by the checks. -/
structure IssueRecord where
  type : String
  title : String
  description : String
  count : Nat
  examples : List Cell
  impact : Nat
  effort : Nat
  priority_score : ℚ
  recommendation : String
deriving DecidableEq

/-- Builds the issue dictionary exactly as every check does: scores looked up in
`ISSUE_SCORES[ty]` and `priority_score` computed as their float division. -/
def mkIssue (ty ti de : String) (count : Nat) (examples : List Cell) (re : String) :
    IssueRecord :=
  { type := ty, title := ti, description := de, count := count, examples := examples,
    impact := (scoreOf ty).impact, effort := (scoreOf ty).effort,
    priority_score := ((scoreOf ty).impact : ℚ) / ((scoreOf ty).effort : ℚ),
    recommendation := re }

/-! ## Row filters of the individual checks -/

/-- `df[df[c].notna()]`, i.e. `df.dropna(subset=[c])`. -/
def nonNaRows (df : DataFrame) (c : String) : List Row :=
  df.rows.filter (fun r => !(cellIsNa (cellAt r c)))

/-- `df[df["Status Code"].between(400, 499)]` of `analyze_broken_links`. -/
def clientErrorRows (df : DataFrame) : List Row :=
  df.rows.filter (fun r => cellBetween (cellAt r "Status Code") 400 499)

/-- `df[df["Status Code"].between(500, 599)]` of `analyze_broken_links`. -/
def serverErrorRows (df : DataFrame) : List Row :=
  df.rows.filter (fun r => cellBetween (cellAt r "Status Code") 500 599)

/-- `df[df["Redirect Chain"] > 1]` of `analyze_redirect_chains`. -/
def redirectChainRows (df : DataFrame) : List Row :=
  df.rows.filter (fun r => cellGtNum (cellAt r "Redirect Chain") 1)

/-- `df[df["Meta Description 1"].isna()]` of `analyze_missing_meta_descriptions`. -/
def missingMetaRows (df : DataFrame) : List Row :=
  df.rows.filter (fun r => cellIsNa (cellAt r "Meta Description 1"))

/-- `df[df["H1-1"].isna()]` of `analyze_missing_h1`. -/
def missingH1Rows (df : DataFrame) : List Row :=
  df.rows.filter (fun r => cellIsNa (cellAt r "H1-1"))

/-- `df[df["Page Load Time (Seconds)"] > 3.0]` of `analyze_slow_pages`. -/
def slowPageRows (df : DataFrame) : List Row :=
  df.rows.filter (fun r => cellGtNum (cellAt r "Page Load Time (Seconds)") 3)

/-- `analyze_title_length`: after `dropna(subset=["Title 1"])`, titles longer than 60. -/
def longTitleRows (df : DataFrame) : List Row :=
  (nonNaRows df "Title 1").filter (fun r => cellStrLenGt (cellAt r "Title 1") 60)

/-- `analyze_description_length`: after `dropna(subset=["Meta Description 1"])`,
descriptions longer than 160. -/
def longDescriptionRows (df : DataFrame) : List Row :=
  (nonNaRows df "Meta Description 1").filter
    (fun r => cellStrLenGt (cellAt r "Meta Description 1") 160)

/-- `df[df["Alt Text"].isna()]` of `analyze_missing_alt_text`. -/
def missingAltRows (df : DataFrame) : List Row :=
  df.rows.filter (fun r => cellIsNa (cellAt r "Alt Text"))

/-- `df.dropna(subset=["H1-2"])` of `analyze_multiple_h1`. -/
def multipleH1Rows (df : DataFrame) : List Row :=
  df.rows.filter (fun r => !(cellIsNa (cellAt r "H1-2")))

/-- Shared tail of every check: if the filtered frame is non-empty, build the issue
dictionary with `count = len(matches)` and `examples = matches["Address"].head(5)`.
Reading the `Address` column raises a `KeyError` when the column is absent; with an
empty match set the record (and hence the column access) is skipped. -/
def emitFiltered (df : DataFrame) (hits : List Row) (ty ti de re : String) :
    Except String (List IssueRecord) :=
  if hits.isEmpty then .ok []
  else if "Address" ∈ df.columns then
    .ok [mkIssue ty ti de hits.length
          ((hits.map (fun r => cellAt r "Address")).take 5) re]
  else .error "Address"

/-! ## The eleven checks (ten methods) of `SEOAuditAutomation` -/

/-- `analyze_broken_links`: 4xx then 5xx rows of the `response_codes` table.
`df["Status Code"]` is read unguarded, so a table without that column raises. -/
def analyze_broken_links (data : Data) : Except String (List IssueRecord) :=
  match List.lookup "response_codes" data with
  | none => .ok []
  | some df =>
    if "Status Code" ∈ df.columns then
      match emitFiltered df (clientErrorRows df) "broken_links" "Broken Links (4xx)"
          "Pages returning client error status codes"
          "Fix or redirect broken links to maintain user experience and link equity" with
      | .error e => .error e
      | .ok l1 =>
        match emitFiltered df (serverErrorRows df) "server_errors" "Server Errors (5xx)"
            "Pages returning server error status codes"
            "Investigate server issues and fix the root cause to ensure page availability" with
        | .error e => .error e
        | .ok l2 => .ok (l1 ++ l2)
    else .error "Status Code"

/-- `analyze_redirect_chains`: guarded by `"Redirect Chain" in df.columns`. -/
def analyze_redirect_chains (data : Data) : Except String (List IssueRecord) :=
  match List.lookup "redirect_chains" data with
  | none => .ok []
  | some df =>
    if "Redirect Chain" ∈ df.columns then
      emitFiltered df (redirectChainRows df) "redirect_chains" "Redirect Chains"
        "URLs with multiple redirects in sequence"
        "Reduce redirect chains to a single redirect to improve page speed and reduce crawl budget waste"
    else .ok []

/-! ### Duplicate-title detection -/

/-- Distinct elements of `l` in order of first occurrence (`seen` accumulates
the values already taken). -/
def firstOccAux : List Cell → List Cell → List Cell
  | [], _ => []
  | x :: xs, seen => if x ∈ seen then firstOccAux xs seen else x :: firstOccAux xs (x :: seen)

/-- Distinct elements of `l` in order of first occurrence. -/
def firstOcc (l : List Cell) : List Cell := firstOccAux l []

/-- pandas `Series.value_counts()`: each distinct value with its number of
occurrences, ordered by count descending. -/
def valueCounts (l : List Cell) : List (Cell × Nat) :=
  sortDescBy (fun p => (p.2 : ℚ)) ((firstOcc l).map (fun v => (v, l.count v)))

/-- The rows surviving `df.dropna(subset=["Title 1"])`. -/
def nonNaTitleRows (df : DataFrame) : List Row := nonNaRows df "Title 1"

/-- `df["Title 1"]` after the dropna. -/
def titleValues (df : DataFrame) : List Cell :=
  (nonNaTitleRows df).map (fun r => cellAt r "Title 1")

/-- `title_counts[title_counts > 1].index.tolist()`: the duplicated title values. -/
def dupTitles (df : DataFrame) : List Cell :=
  ((valueCounts (titleValues df)).filter (fun p => decide (1 < p.2))).map (fun p => p.1)

/-- The example URLs of `analyze_duplicate_titles`: up to 2 addresses per duplicated
title over the first 5 duplicated titles, the concatenation truncated to 5. -/
def dupTitleExamples (df : DataFrame) : List Cell :=
  (((dupTitles df).take 5).flatMap (fun t =>
    (((nonNaTitleRows df).filter (fun r => decide (cellAt r "Title 1" = t))).map
      (fun r => cellAt r "Address")).take 2)).take 5

/-- `analyze_duplicate_titles`: `dropna(subset=["Title 1"])` raises when the column is
absent; the `Address` read happens only when some duplicated title exists. -/
def analyze_duplicate_titles (data : Data) : Except String (List IssueRecord) :=
  match List.lookup "page_titles" data with
  | none => .ok []
  | some df =>
    if "Title 1" ∈ df.columns then
      if (dupTitles df).isEmpty then .ok []
      else if "Address" ∈ df.columns then
        .ok [mkIssue "duplicate_titles" "Duplicate Page Titles"
              "Multiple pages using the same title" (dupTitles df).length
              (dupTitleExamples df)
              "Create unique page titles to improve SEO and user experience"]
      else .error "Address"
    else .error "Title 1"

/-- `analyze_missing_meta_descriptions`: unguarded read of `"Meta Description 1"`. -/
def analyze_missing_meta_descriptions (data : Data) : Except String (List IssueRecord) :=
  match List.lookup "meta_description" data with
  | none => .ok []
  | some df =>
    if "Meta Description 1" ∈ df.columns then
      emitFiltered df (missingMetaRows df) "missing_meta_descriptions"
        "Missing Meta Descriptions" "Pages without meta descriptions"
        "Add compelling meta descriptions to improve click-through rates from search results"
    else .error "Meta Description 1"

/-- `analyze_missing_h1`: unguarded read of `"H1-1"`. -/
def analyze_missing_h1 (data : Data) : Except String (List IssueRecord) :=
  match List.lookup "h1" data with
  | none => .ok []
  | some df =>
    if "H1-1" ∈ df.columns then
      emitFiltered df (missingH1Rows df) "missing_h1" "Missing H1 Tags"
        "Pages without H1 headings"
        "Add H1 tags to all pages to improve content hierarchy and relevance signals"
    else .error "H1-1"

/-- `analyze_slow_pages`: guarded by `"Page Load Time (Seconds)" in df.columns`. -/
def analyze_slow_pages (data : Data) : Except String (List IssueRecord) :=
  match List.lookup "page_speed" data with
  | none => .ok []
  | some df =>
    if "Page Load Time (Seconds)" ∈ df.columns then
      emitFiltered df (slowPageRows df) "slow_pages" "Slow-Loading Pages"
        "Pages with load time greater than 3.0 seconds"
        "Optimize page speed by reducing file sizes, implementing caching, and minimizing render-blocking resources"
    else .ok []

/-- `analyze_title_length`: the `dropna(subset=["Title 1"])` raises when absent. -/
def analyze_title_length (data : Data) : Except String (List IssueRecord) :=
  match List.lookup "page_titles" data with
  | none => .ok []
  | some df =>
    if "Title 1" ∈ df.columns then
      emitFiltered df (longTitleRows df) "title_too_long" "Page Titles Too Long"
        "Page titles longer than 60 characters"
        "Shorten page titles to under 60 characters to avoid truncation in search results"
    else .error "Title 1"

/-- `analyze_description_length`: the `dropna(subset=["Meta Description 1"])` raises
when absent. -/
def analyze_description_length (data : Data) : Except String (List IssueRecord) :=
  match List.lookup "meta_description" data with
  | none => .ok []
  | some df =>
    if "Meta Description 1" ∈ df.columns then
      emitFiltered df (longDescriptionRows df) "description_too_long"
        "Meta Descriptions Too Long" "Meta descriptions longer than 160 characters"
        "Shorten meta descriptions to under 160 characters to avoid truncation in search results"
    else .error "Meta Description 1"

/-- `analyze_missing_alt_text`: unguarded read of `"Alt Text"`. -/
def analyze_missing_alt_text (data : Data) : Except String (List IssueRecord) :=
  match List.lookup "images" data with
  | none => .ok []
  | some df =>
    if "Alt Text" ∈ df.columns then
      emitFiltered df (missingAltRows df) "missing_alt_text" "Images Missing Alt Text"
        "Images without alternative text"
        "Add descriptive alt text to all images to improve accessibility and image search visibility"
    else .error "Alt Text"

/-- `analyze_multiple_h1`: guarded by `"H1-2" in df.columns`. -/
def analyze_multiple_h1 (data : Data) : Except String (List IssueRecord) :=
  match List.lookup "h1" data with
  | none => .ok []
  | some df =>
    if "H1-2" ∈ df.columns then
      emitFiltered df (multipleH1Rows df) "multiple_h1" "Multiple H1 Tags"
        "Pages with more than one H1 heading"
        "Use a single H1 tag per page to maintain clear content hierarchy"
    else .ok []

/-! ## `run_analysis` and the summary -/

/-- The records appended to `self.issues["critical"]`, in the order `run_analysis`
invokes the three critical checks. -/
def emitted_critical (data : Data) : Except String (List IssueRecord) :=
  match analyze_broken_links data with
  | .error e => .error e
  | .ok bl =>
    match analyze_redirect_chains data with
    | .error e => .error e
    | .ok rc =>
      match analyze_duplicate_titles data with
      | .error e => .error e
      | .ok dt => .ok (bl ++ rc ++ dt)

/-- The records appended to `self.issues["high"]`, in invocation order. -/
def emitted_high (data : Data) : Except String (List IssueRecord) :=
  match analyze_missing_meta_descriptions data with
  | .error e => .error e
  | .ok md =>
    match analyze_missing_h1 data with
    | .error e => .error e
    | .ok mh =>
      match analyze_slow_pages data with
      | .error e => .error e
      | .ok sp => .ok (md ++ mh ++ sp)

/-- The records appended to `self.issues["medium"]`, in invocation order. -/
def emitted_medium (data : Data) : Except String (List IssueRecord) :=
  match analyze_title_length data with
  | .error e => .error e
  | .ok tl =>
    match analyze_description_length data with
    | .error e => .error e
    | .ok dl =>
      match analyze_missing_alt_text data with
      | .error e => .error e
      | .ok ma => .ok (tl ++ dl ++ ma)

/-- The records appended to `self.issues["low"]` (the single low check). -/
def emitted_low (data : Data) : Except String (List IssueRecord) :=
  analyze_multiple_h1 data

/-- The four `self.issues` severity bucket lists. -/
structure Buckets where
  critical : List IssueRecord
  high : List IssueRecord
  medium : List IssueRecord
  low : List IssueRecord
deriving DecidableEq

/-- `self.issues` as initialized by `__init__`: four empty buckets. -/
def initBuckets : Buckets := ⟨[], [], [], []⟩

/-- The sort key `lambda x: x.get("priority_score", 0)` (every record has the field). -/
def prioKey (r : IssueRecord) : ℚ := r.priority_score

/-- The sort key `lambda x: x.get("impact", 0)` (every record has the field). -/
def impactKey (r : IssueRecord) : ℚ := (r.impact : ℚ)

/-- All records over the four buckets, flattened in the dictionary's insertion order
critical, high, medium, low (as `_get_highest_impact_issues` iterates them). -/
def allIssues (b : Buckets) : List IssueRecord := b.critical ++ b.high ++ b.medium ++ b.low

/-- `_get_highest_impact_issues(n)`: flatten all buckets, stable-sort by raw impact
descending, truncate to `n`. -/
def _get_highest_impact_issues (n : Nat) (b : Buckets) : List IssueRecord :=
  (sortDescBy impactKey (allIssues b)).take n

/-- `self.summary` (the wall-clock `date` field is outside the embedding). -/
structure Summary where
  total_issues : Nat
  critical_count : Nat
  high_count : Nat
  medium_count : Nat
  low_count : Nat
  highest_impact_issues : List IssueRecord
deriving DecidableEq

/-- The instance state after `run_analysis`: the bucket lists and the summary. -/
structure AuditState where
  issues : Buckets
  summary : Summary
deriving DecidableEq

/-- `run_analysis`: run the ten checks in source order (grouped by the severity of
the bucket they append to, as in the method body), append their records to the
buckets of the incoming state `st`, stable-sort every bucket by `priority_score`
descending, and recompute the summary.  An uncaught `KeyError` in any check is
propagated. -/
def run_analysis (st : Buckets) (data : Data) : Except String AuditState :=
  match emitted_critical data with
  | .error e => .error e
  | .ok ec =>
    match emitted_high data with
    | .error e => .error e
    | .ok eh =>
      match emitted_medium data with
      | .error e => .error e
      | .ok em =>
        match emitted_low data with
        | .error e => .error e
        | .ok el =>
          let b : Buckets :=
            ⟨sortDescBy prioKey (st.critical ++ ec), sortDescBy prioKey (st.high ++ eh),
             sortDescBy prioKey (st.medium ++ em), sortDescBy prioKey (st.low ++ el)⟩
          .ok ⟨b,
            ⟨b.critical.length + b.high.length + b.medium.length + b.low.length,
             b.critical.length, b.high.length, b.medium.length, b.low.length,
             _get_highest_impact_issues 3 b⟩⟩

/-! ## Excel report rows (`workflow.py`, `generate_excel_report`) -/

/-- One row of a per-bucket sheet of the Excel report. -/
structure ExcelRow where
  issue_type : String
  url : Cell
  impact : Nat
  effort : Nat
  priority_score : ℚ
  recommendation : String
deriving DecidableEq

/-- The rows one issue contributes: one per entry of its `examples` list, each
repeating the issue's title, scores and recommendation. -/
def issueRows (i : IssueRecord) : List ExcelRow :=
  i.examples.map (fun ex =>
    ⟨i.title, ex, i.impact, i.effort, i.priority_score, i.recommendation⟩)

/-- `issue_data` for one bucket: the nested `for issue / for example` loops. -/
def bucketRows (b : List IssueRecord) : List ExcelRow := b.flatMap issueRows

/-- The per-bucket sheets of `generate_excel_report`, in category order.  A sheet is
written only when the bucket is non-empty (`if data["issues"][category]`) and its row
list is non-empty (`if issue_data`).  Sheet names are `category.capitalize()`. -/
def generate_excel_sheets (b : Buckets) : List (String × List ExcelRow) :=
  [("Critical", b.critical), ("High", b.high), ("Medium", b.medium), ("Low", b.low)].flatMap
    (fun p =>
      if p.2.isEmpty then []
      else if (bucketRows p.2).isEmpty then []
      else [(p.1, bucketRows p.2)])

/-! ## Crawl polling (`screaming_frog_api.py`, `wait_for_crawl_completion`)

`get_crawl_status` degrades every transport error and non-2xx response to `None`,
so one poll is modelled as `Option String`: `none` for a failed request, `some s`
for a response whose `status` field is `s` (`""` when the field is absent).
Elapsed time at the top of iteration `k` is idealized as `k * check_interval`
(`k` completed sleeps); the loop carries fuel, which the wrapper sizes so that the
timeout always fires first. -/

/-- The polling loop body of `wait_for_crawl_completion`.  Returns the boolean
result together with the number of polls performed. -/
def waitLoop (getStatus : Nat → Option String) (check_interval timeout : Nat) :
    Nat → Nat → Bool × Nat
  | 0, k => (false, k)
  | fuel + 1, k =>
    if timeout < k * check_interval then (false, k)
    else
      match getStatus k with
      | none => (false, k + 1)
      | some s =>
        if s = "FINISHED" then (true, k + 1)
        else if s ∈ ["FAILED", "STOPPED", "INTERRUPTED"] then (false, k + 1)
        else waitLoop getStatus check_interval timeout fuel (k + 1)

/-- `wait_for_crawl_completion(crawl_id, check_interval, timeout)` over the poll
sequence `getStatus`.  The fuel `timeout / check_interval + 2` strictly exceeds the
number of iterations the timeout admits, so the fuel-exhaustion branch is never
taken for a positive `check_interval`. -/
def wait_for_crawl_completion (getStatus : Nat → Option String)
    (check_interval timeout : Nat) : Bool × Nat :=
  waitLoop getStatus check_interval timeout (timeout / check_interval + 2) 0

/-! ## CSV loading (`seo_audit_automation.py`, `load_files`)

The file system is an environment: the directory listing (which can raise), and
the outcome of parsing each file under each of the two encodings.  String
matching is implemented on character lists because the checks must be executable
on concrete file names; lowercasing is ASCII lowercasing (the export file names
are ASCII). -/

/-- The `expected_files` list of `load_files`. -/
def expected_files : List String :=
  ["internal_all.csv", "internal_html.csv", "response_codes.csv", "page_titles.csv",
   "meta_description.csv", "h1.csv", "images.csv", "redirect_chains.csv",
   "all_inlinks.csv", "page_speed.csv"]

/-- ASCII lowercasing of one character (`str.lower()` on the ASCII file names). -/
def lowerChar (c : Char) : Char :=
  if 65 ≤ c.toNat ∧ c.toNat ≤ 90 then Char.ofNat (c.toNat + 32) else c

/-- `s.lower()` as a character list. -/
def lowerList (s : String) : List Char := s.toList.map lowerChar

/-- `filename.endswith(".csv")`. -/
def strEndsWith (s suffix : String) : Bool := suffix.toList.isSuffixOf s.toList

/-- `expected.lower() in filename.lower()` (substring containment). -/
def containsLower (filename e : String) : Bool :=
  (List.range ((lowerList filename).length + 1)).any
    (fun i => (lowerList e).isPrefixOf (List.drop i (lowerList filename)))

/-- The inner `for expected in expected_files: ... break` loop: the first expected
name occurring in the file name, if any. -/
def matchExpected (filename : String) : Option String :=
  expected_files.find? (containsLower filename)

/-- `expected.replace(".csv", "")`: every expected name contains `".csv"` exactly
once, as its suffix, so the replacement drops the last four characters. -/
def dropCsvSuffix (s : String) : String :=
  String.mk (s.toList.take (s.toList.length - 4))

/-- Python dict assignment `d[k] = v`: replace in place or append. -/
def dictUpsert (k v : String) : List (String × String) → List (String × String)
  | [] => [(k, v)]
  | (k', v') :: t => if k' = k then (k, v) :: t else (k', v') :: dictUpsert k v t

/-- One iteration of the discovery loop: a listed `.csv` file matching an expected
name is recorded under the key `expected.replace(".csv", "")` (the file name stands
in for its full path); other files are ignored. -/
def matchStep (fs : List (String × String)) (fn : String) : List (String × String) :=
  if strEndsWith fn ".csv" then
    match matchExpected fn with
    | some e => dictUpsert (dropCsvSuffix e) fn fs
    | none => fs
  else fs

/-- `self.files` after the discovery loop over the directory listing. -/
def matchedFiles (names : List String) : List (String × String) :=
  names.foldl matchStep []

/-- The file-system environment `load_files` runs against. -/
structure FileSys where
  listing : Except String (List String)
  parse_utf8 : String → Except String DataFrame
  parse_latin1 : String → Except String DataFrame

/-- The per-file loading block: `read_csv(encoding='utf-8')`, on any failure retried
with `encoding='latin1'`, and on a second failure the file is skipped. -/
def tryParse (fs : FileSys) (path : String) : Option DataFrame :=
  match fs.parse_utf8 path with
  | .ok df => some df
  | .error _ =>
    match fs.parse_latin1 path with
    | .ok df => some df
    | .error _ => none

/-- `self.data` after the loading loop over `self.files` (keys of `matchedFiles`
are distinct, so insertion in iteration order is plain consing). -/
def loadTables (fs : FileSys) : List (String × String) → Data
  | [] => []
  | (k, p) :: t =>
    match tryParse fs p with
    | some df => (k, df) :: loadTables fs t
    | none => loadTables fs t

/-- `load_files`: `False` exactly when the directory listing raises; parse failures
only skip their file. -/
def load_files (fs : FileSys) : Bool × Data :=
  match fs.listing with
  | .error _ => (false, [])
  | .ok names => (true, loadTables fs (matchedFiles names))

/-! ## Sample inputs used by the witness theorems -/

/-- Field-level invariant shared by several claims: the priority score is the exact
impact/effort ratio, the count is positive, and at most five examples are kept. -/
def recordWellFormed (r : IssueRecord) : Prop :=
  r.priority_score = (r.impact : ℚ) / (r.effort : ℚ) ∧ 1 ≤ r.count ∧ r.examples.length ≤ 5

/-- Sample `page_titles` table: two rows sharing one title. -/
def samplePageTitles : DataFrame :=
  ⟨["Address", "Title 1"],
   [[("Address", Cell.str "https://a/1"), ("Title 1", Cell.str "Home")],
    [("Address", Cell.str "https://a/2"), ("Title 1", Cell.str "Home")]]⟩

/-- Sample loaded-table state holding only the page-titles export. -/
def sampleTitlesData : Data := [("page_titles", samplePageTitles)]

/-- A table with only an `Address` column, lacking every condition column. -/
def sampleBareDF : DataFrame := ⟨["Address"], [[("Address", Cell.str "https://a/1")]]⟩

/-- Every source table loaded, each as the bare address-only table. -/
def sampleBareData : Data :=
  [("response_codes", sampleBareDF), ("redirect_chains", sampleBareDF),
   ("page_titles", sampleBareDF), ("meta_description", sampleBareDF),
   ("h1", sampleBareDF), ("page_speed", sampleBareDF), ("images", sampleBareDF)]

/-- A file system whose listing succeeds with one matching export that only parses
under the fallback encoding, plus one non-CSV file. -/
def sampleFileSys : FileSys :=
  ⟨.ok ["response_codes.csv", "notes.txt"],
   fun _ => .error "utf-8 decode error",
   fun p => if p = "response_codes.csv" then .ok sampleBareDF
            else .error "latin1 decode error"⟩

/-- A file system whose directory listing raises. -/
def sampleBrokenFileSys : FileSys :=
  ⟨.error "No such directory", fun _ => .error "unused", fun _ => .error "unused"⟩

/-! # Theorems

First, general facts about the stable descending sort, then per-check helper
lemmas, then the claim theorems. -/

theorem insertDescBy_perm {α β : Type*} [LinearOrder β] (key : α → β) (a : α)
    (l : List α) : (insertDescBy key a l).Perm (a :: l) := by
  induction l with
  | nil => simp [insertDescBy]
  | cons b t ih =>
    simp only [insertDescBy]
    split
    · exact List.Perm.refl _
    · exact (ih.cons b).trans (List.Perm.swap a b t)

theorem sortDescBy_perm {α β : Type*} [LinearOrder β] (key : α → β) (l : List α) :
    (sortDescBy key l).Perm l := by
  induction l with
  | nil => exact List.Perm.refl _
  | cons a t ih => exact (insertDescBy_perm key a _).trans (ih.cons a)

theorem sortDescBy_length {α β : Type*} [LinearOrder β] (key : α → β) (l : List α) :
    (sortDescBy key l).length = l.length :=
  (sortDescBy_perm key l).length_eq

theorem insertDescBy_pairwise {α β : Type*} [LinearOrder β] (key : α → β) (a : α)
    {l : List α} (h : l.Pairwise (fun x y => key y ≤ key x)) :
    (insertDescBy key a l).Pairwise (fun x y => key y ≤ key x) := by
  induction l with
  | nil => simp [insertDescBy]
  | cons b t ih =>
    rw [List.pairwise_cons] at h
    obtain ⟨hb, ht⟩ := h
    simp only [insertDescBy]
    split
    · rename_i hba
      refine List.pairwise_cons.2 ⟨?_, List.pairwise_cons.2 ⟨hb, ht⟩⟩
      intro y hy
      rcases List.mem_cons.1 hy with rfl | hy'
      · exact hba
      · exact (hb y hy').trans hba
    · rename_i hba
      push_neg at hba
      refine List.pairwise_cons.2 ⟨?_, ih ht⟩
      intro y hy
      rcases List.mem_cons.1 ((insertDescBy_perm key a t).mem_iff.1 hy) with rfl | hy'
      · exact le_of_lt hba
      · exact hb y hy'

theorem sortDescBy_pairwise {α β : Type*} [LinearOrder β] (key : α → β) (l : List α) :
    (sortDescBy key l).Pairwise (fun x y => key y ≤ key x) := by
  induction l with
  | nil => simp [sortDescBy]
  | cons a t ih => exact insertDescBy_pairwise key a ih

theorem insertDescBy_filter_pos {α β : Type*} [LinearOrder β] (key : α → β) (a : α)
    (l : List α) (q : β) (ha : key a = q) :
    (insertDescBy key a l).filter (fun x => decide (key x = q)) =
      a :: l.filter (fun x => decide (key x = q)) := by
  induction l with
  | nil => simp [insertDescBy, ha]
  | cons b t ih =>
    simp only [insertDescBy]
    split
    · simp [List.filter_cons, ha]
    · rename_i hba
      push_neg at hba
      have hbq : ¬(key b = q) := by rw [← ha]; exact ne_of_gt hba
      simp [List.filter_cons, hbq, ih]

theorem insertDescBy_filter_neg {α β : Type*} [LinearOrder β] (key : α → β) (a : α)
    (l : List α) (q : β) (ha : ¬(key a = q)) :
    (insertDescBy key a l).filter (fun x => decide (key x = q)) =
      l.filter (fun x => decide (key x = q)) := by
  induction l with
  | nil => simp [insertDescBy, ha]
  | cons b t ih =>
    simp only [insertDescBy]
    split
    · simp [List.filter_cons, ha]
    · simp only [List.filter_cons, ih]

/-- Stability of the modelled Python sort: for every key value, the sorted list
restricted to that key is the input restricted to that key, in input order. -/
theorem sortDescBy_filter {α β : Type*} [LinearOrder β] (key : α → β) (l : List α)
    (q : β) :
    (sortDescBy key l).filter (fun x => decide (key x = q)) =
      l.filter (fun x => decide (key x = q)) := by
  induction l with
  | nil => rfl
  | cons a t ih =>
    simp only [sortDescBy]
    by_cases ha : key a = q
    · rw [insertDescBy_filter_pos key a _ q ha, ih, List.filter_cons]
      simp [ha]
    · rw [insertDescBy_filter_neg key a _ q ha, ih, List.filter_cons]
      simp [ha]

/-! ## Per-check helper lemmas -/

theorem emitFiltered_ok_elim {df : DataFrame} {hits : List Row} {ty ti de re : String}
    {l : List IssueRecord} (h : emitFiltered df hits ty ti de re = .ok l) :
    l = [] ∨ (hits ≠ [] ∧
      l = [mkIssue ty ti de hits.length
            ((hits.map (fun r => cellAt r "Address")).take 5) re]) := by
  unfold emitFiltered at h
  by_cases he : hits.isEmpty
  · rw [if_pos he] at h
    cases h
    exact Or.inl rfl
  · rw [if_neg he] at h
    by_cases hc : "Address" ∈ df.columns
    · rw [if_pos hc] at h
      cases h
      exact Or.inr ⟨by simpa [List.isEmpty_iff] using he, rfl⟩
    · rw [if_neg hc] at h
      exact absurd h (by simp)

theorem mkIssue_wellFormed {ty ti de re : String} {hits : List Row}
    (hne : hits ≠ []) :
    recordWellFormed (mkIssue ty ti de hits.length
      ((hits.map (fun r => cellAt r "Address")).take 5) re) := by
  refine ⟨rfl, ?_, ?_⟩
  · simpa [mkIssue, Nat.succ_le_iff, List.length_pos] using hne
  · simp [mkIssue]

theorem emitFiltered_wellFormed {df : DataFrame} {hits : List Row} {ty ti de re : String}
    {l : List IssueRecord} (h : emitFiltered df hits ty ti de re = .ok l) :
    ∀ r ∈ l, recordWellFormed r := by
  intro r hr
  rcases emitFiltered_ok_elim h with rfl | ⟨hne, rfl⟩
  · simp at hr
  · rcases List.mem_singleton.1 hr with rfl
    exact mkIssue_wellFormed hne

theorem analyze_broken_links_wellFormed {data : Data} {l : List IssueRecord}
    (h : analyze_broken_links data = .ok l) : ∀ r ∈ l, recordWellFormed r := by
  unfold analyze_broken_links at h
  split at h
  · cases h; simp
  · split at h
    · split at h
      · exact absurd h (by simp)
      · rename_i l1 h1
        split at h
        · exact absurd h (by simp)
        · rename_i l2 h2
          cases h
          intro r hr
          rcases List.mem_append.1 hr with hr' | hr'
          · exact emitFiltered_wellFormed h1 r hr'
          · exact emitFiltered_wellFormed h2 r hr'
    · exact absurd h (by simp)

theorem analyze_redirect_chains_wellFormed {data : Data} {l : List IssueRecord}
    (h : analyze_redirect_chains data = .ok l) : ∀ r ∈ l, recordWellFormed r := by
  unfold analyze_redirect_chains at h
  split at h
  · cases h; simp
  · split at h
    · exact emitFiltered_wellFormed h
    · cases h; simp

theorem analyze_duplicate_titles_wellFormed {data : Data} {l : List IssueRecord}
    (h : analyze_duplicate_titles data = .ok l) : ∀ r ∈ l, recordWellFormed r := by
  unfold analyze_duplicate_titles at h
  split at h
  · cases h; simp
  · rename_i df hdf
    split at h
    · split at h
      · cases h; simp
      · rename_i hne
        split at h
        · cases h
          intro r hr
          rcases List.mem_singleton.1 hr with rfl
          refine ⟨rfl, ?_, ?_⟩
          · have : dupTitles df ≠ [] := by simpa [List.isEmpty_iff] using hne
            simpa [mkIssue, Nat.succ_le_iff, List.length_pos] using this
          · simp [mkIssue, dupTitleExamples, List.length_take]
        · exact absurd h (by simp)
    · exact absurd h (by simp)

theorem analyze_missing_meta_descriptions_wellFormed {data : Data} {l : List IssueRecord}
    (h : analyze_missing_meta_descriptions data = .ok l) : ∀ r ∈ l, recordWellFormed r := by
  unfold analyze_missing_meta_descriptions at h
  split at h
  · cases h; simp
  · split at h
    · exact emitFiltered_wellFormed h
    · exact absurd h (by simp)

theorem analyze_missing_h1_wellFormed {data : Data} {l : List IssueRecord}
    (h : analyze_missing_h1 data = .ok l) : ∀ r ∈ l, recordWellFormed r := by
  unfold analyze_missing_h1 at h
  split at h
  · cases h; simp
  · split at h
    · exact emitFiltered_wellFormed h
    · exact absurd h (by simp)

theorem analyze_slow_pages_wellFormed {data : Data} {l : List IssueRecord}
    (h : analyze_slow_pages data = .ok l) : ∀ r ∈ l, recordWellFormed r := by
  unfold analyze_slow_pages at h
  split at h
  · cases h; simp
  · split at h
    · exact emitFiltered_wellFormed h
    · cases h; simp

theorem analyze_title_length_wellFormed {data : Data} {l : List IssueRecord}
    (h : analyze_title_length data = .ok l) : ∀ r ∈ l, recordWellFormed r := by
  unfold analyze_title_length at h
  split at h
  · cases h; simp
  · split at h
    · exact emitFiltered_wellFormed h
    · exact absurd h (by simp)

theorem analyze_description_length_wellFormed {data : Data} {l : List IssueRecord}
    (h : analyze_description_length data = .ok l) : ∀ r ∈ l, recordWellFormed r := by
  unfold analyze_description_length at h
  split at h
  · cases h; simp
  · split at h
    · exact emitFiltered_wellFormed h
    · exact absurd h (by simp)

theorem analyze_missing_alt_text_wellFormed {data : Data} {l : List IssueRecord}
    (h : analyze_missing_alt_text data = .ok l) : ∀ r ∈ l, recordWellFormed r := by
  unfold analyze_missing_alt_text at h
  split at h
  · cases h; simp
  · split at h
    · exact emitFiltered_wellFormed h
    · exact absurd h (by simp)

theorem analyze_multiple_h1_wellFormed {data : Data} {l : List IssueRecord}
    (h : analyze_multiple_h1 data = .ok l) : ∀ r ∈ l, recordWellFormed r := by
  unfold analyze_multiple_h1 at h
  split at h
  · cases h; simp
  · split at h
    · exact emitFiltered_wellFormed h
    · cases h; simp

theorem emitted_critical_wellFormed {data : Data} {l : List IssueRecord}
    (h : emitted_critical data = .ok l) : ∀ r ∈ l, recordWellFormed r := by
  unfold emitted_critical at h
  split at h
  · exact absurd h (by simp)
  · rename_i bl h1
    split at h
    · exact absurd h (by simp)
    · rename_i rc h2
      split at h
      · exact absurd h (by simp)
      · rename_i dt h3
        cases h
        intro r hr
        rcases List.mem_append.1 hr with hr' | hr'
        · rcases List.mem_append.1 hr' with hr'' | hr''
          · exact analyze_broken_links_wellFormed h1 r hr''
          · exact analyze_redirect_chains_wellFormed h2 r hr''
        · exact analyze_duplicate_titles_wellFormed h3 r hr'

theorem emitted_high_wellFormed {data : Data} {l : List IssueRecord}
    (h : emitted_high data = .ok l) : ∀ r ∈ l, recordWellFormed r := by
  unfold emitted_high at h
  split at h
  · exact absurd h (by simp)
  · rename_i md h1
    split at h
    · exact absurd h (by simp)
    · rename_i mh h2
      split at h
      · exact absurd h (by simp)
      · rename_i sp h3
        cases h
        intro r hr
        rcases List.mem_append.1 hr with hr' | hr'
        · rcases List.mem_append.1 hr' with hr'' | hr''
          · exact analyze_missing_meta_descriptions_wellFormed h1 r hr''
          · exact analyze_missing_h1_wellFormed h2 r hr''
        · exact analyze_slow_pages_wellFormed h3 r hr'

theorem emitted_medium_wellFormed {data : Data} {l : List IssueRecord}
    (h : emitted_medium data = .ok l) : ∀ r ∈ l, recordWellFormed r := by
  unfold emitted_medium at h
  split at h
  · exact absurd h (by simp)
  · rename_i tl h1
    split at h
    · exact absurd h (by simp)
    · rename_i dl h2
      split at h
      · exact absurd h (by simp)
      · rename_i ma h3
        cases h
        intro r hr
        rcases List.mem_append.1 hr with hr' | hr'
        · rcases List.mem_append.1 hr' with hr'' | hr''
          · exact analyze_title_length_wellFormed h1 r hr''
          · exact analyze_description_length_wellFormed h2 r hr''
        · exact analyze_missing_alt_text_wellFormed h3 r hr'

theorem emitted_low_wellFormed {data : Data} {l : List IssueRecord}
    (h : emitted_low data = .ok l) : ∀ r ∈ l, recordWellFormed r :=
  analyze_multiple_h1_wellFormed h

/-- Unfolding lemma for a successful `run_analysis`: the four emission phases all
succeeded and the resulting state is built from them. -/
theorem run_analysis_ok_elim {st : Buckets} {data : Data} {s : AuditState}
    (h : run_analysis st data = .ok s) :
    ∃ ec eh em el, emitted_critical data = .ok ec ∧ emitted_high data = .ok eh ∧
      emitted_medium data = .ok em ∧ emitted_low data = .ok el ∧
      s.issues.critical = sortDescBy prioKey (st.critical ++ ec) ∧
      s.issues.high = sortDescBy prioKey (st.high ++ eh) ∧
      s.issues.medium = sortDescBy prioKey (st.medium ++ em) ∧
      s.issues.low = sortDescBy prioKey (st.low ++ el) ∧
      s.summary.total_issues = s.issues.critical.length + s.issues.high.length +
        s.issues.medium.length + s.issues.low.length ∧
      s.summary.critical_count = s.issues.critical.length ∧
      s.summary.high_count = s.issues.high.length ∧
      s.summary.medium_count = s.issues.medium.length ∧
      s.summary.low_count = s.issues.low.length ∧
      s.summary.highest_impact_issues = _get_highest_impact_issues 3 s.issues := by
  unfold run_analysis at h
  split at h
  · exact absurd h (by simp)
  · rename_i ec h1
    split at h
    · exact absurd h (by simp)
    · rename_i eh h2
      split at h
      · exact absurd h (by simp)
      · rename_i em h3
        split at h
        · exact absurd h (by simp)
        · rename_i el h4
          cases h
          exact ⟨ec, eh, em, el, h1, h2, h3, h4, rfl, rfl, rfl, rfl, rfl, rfl, rfl, rfl, rfl, rfl⟩

/-- Claim C1: after a `run_analysis` on a fresh instance, every emitted record's
`priority_score` equals its impact divided by its effort exactly, and each of the
four severity buckets is the stable descending sort, by `priority_score`, of the
records in check-emission order: every bucket is pairwise descending, and for each
score value the bucket restricted to it equals the emission list restricted to it,
in emission order. -/
theorem claim_C1 (data : Data) (s : AuditState)
    (h : run_analysis initBuckets data = .ok s) :
    (∀ r, (r ∈ s.issues.critical ∨ r ∈ s.issues.high ∨ r ∈ s.issues.medium ∨
        r ∈ s.issues.low) → r.priority_score = (r.impact : ℚ) / (r.effort : ℚ)) ∧
    s.issues.critical.Pairwise (fun x y => y.priority_score ≤ x.priority_score) ∧
    s.issues.high.Pairwise (fun x y => y.priority_score ≤ x.priority_score) ∧
    s.issues.medium.Pairwise (fun x y => y.priority_score ≤ x.priority_score) ∧
    s.issues.low.Pairwise (fun x y => y.priority_score ≤ x.priority_score) ∧
    (∀ ec, emitted_critical data = .ok ec → ∀ q : ℚ,
      s.issues.critical.filter (fun r => decide (r.priority_score = q)) =
        ec.filter (fun r => decide (r.priority_score = q))) ∧
    (∀ eh, emitted_high data = .ok eh → ∀ q : ℚ,
      s.issues.high.filter (fun r => decide (r.priority_score = q)) =
        eh.filter (fun r => decide (r.priority_score = q))) ∧
    (∀ em, emitted_medium data = .ok em → ∀ q : ℚ,
      s.issues.medium.filter (fun r => decide (r.priority_score = q)) =
        em.filter (fun r => decide (r.priority_score = q))) ∧
    (∀ el, emitted_low data = .ok el → ∀ q : ℚ,
      s.issues.low.filter (fun r => decide (r.priority_score = q)) =
        el.filter (fun r => decide (r.priority_score = q))) := by
  obtain ⟨ec, eh, em, el, h1, h2, h3, h4, hc, hh, hm, hl, -, -, -, -, -, -⟩ :=
    run_analysis_ok_elim h
  have hc' : s.issues.critical = sortDescBy prioKey ec := by simpa [initBuckets] using hc
  have hh' : s.issues.high = sortDescBy prioKey eh := by simpa [initBuckets] using hh
  have hm' : s.issues.medium = sortDescBy prioKey em := by simpa [initBuckets] using hm
  have hl' : s.issues.low = sortDescBy prioKey el := by simpa [initBuckets] using hl
  refine ⟨?_, ?_, ?_, ?_, ?_, ?_, ?_, ?_, ?_⟩
  · intro r hr
    rcases hr with hr | hr | hr | hr
    · exact (emitted_critical_wellFormed h1 r
        ((sortDescBy_perm prioKey ec).mem_iff.1 (hc' ▸ hr))).1
    · exact (emitted_high_wellFormed h2 r
        ((sortDescBy_perm prioKey eh).mem_iff.1 (hh' ▸ hr))).1
    · exact (emitted_medium_wellFormed h3 r
        ((sortDescBy_perm prioKey em).mem_iff.1 (hm' ▸ hr))).1
    · exact (emitted_low_wellFormed h4 r
        ((sortDescBy_perm prioKey el).mem_iff.1 (hl' ▸ hr))).1
  · rw [hc']; exact sortDescBy_pairwise prioKey ec
  · rw [hh']; exact sortDescBy_pairwise prioKey eh
  · rw [hm']; exact sortDescBy_pairwise prioKey em
  · rw [hl']; exact sortDescBy_pairwise prioKey el
  · intro ec' hec' q
    cases h1.symm.trans hec'
    rw [hc']
    exact sortDescBy_filter prioKey ec q
  · intro eh' heh' q
    cases h2.symm.trans heh'
    rw [hh']
    exact sortDescBy_filter prioKey eh q
  · intro em' hem' q
    cases h3.symm.trans hem'
    rw [hm']
    exact sortDescBy_filter prioKey em q
  · intro el' hel' q
    cases h4.symm.trans hel'
    rw [hl']
    exact sortDescBy_filter prioKey el q

/-- Witness for C1: `run_analysis` on a fresh instance over an empty export set
succeeds with the empty state, and the claim applies to it. -/
theorem claim_C1_witness :
    (AuditState.mk (Buckets.mk [] [] [] [])
      (Summary.mk 0 0 0 0 0 [])).issues.critical.Pairwise
        (fun x y => y.priority_score ≤ x.priority_score) :=
  (claim_C1 [] _ rfl).2.1

/-- Helper: the flattened bucket list's length is the sum of the four lengths. -/
theorem allIssues_length (b : Buckets) :
    (allIssues b).length =
      b.critical.length + b.high.length + b.medium.length + b.low.length := by
  simp [allIssues]; omega

/-- Claim C2: after `run_analysis`, the summary's highest-impact list is the
bucket-order flattening of the four (already priority-sorted) buckets, stably
sorted by impact descending and truncated to 3; its length is
`min 3 total_issues`, it is pairwise descending in impact, and for each impact
value the sorted flattening restricted to that value keeps the flattened
(bucket-major, then per-bucket priority) order. -/
theorem claim_C2 (st : Buckets) (data : Data) (s : AuditState)
    (h : run_analysis st data = .ok s) :
    s.summary.highest_impact_issues = (sortDescBy impactKey (allIssues s.issues)).take 3 ∧
    s.summary.highest_impact_issues.length = min 3 s.summary.total_issues ∧
    s.summary.highest_impact_issues.Pairwise (fun x y => y.impact ≤ x.impact) ∧
    (∀ q : ℕ, (sortDescBy impactKey (allIssues s.issues)).filter
        (fun r => decide (r.impact = q)) =
      (allIssues s.issues).filter (fun r => decide (r.impact = q))) := by
  obtain ⟨ec, eh, em, el, -, -, -, -, -, -, -, -, ht, -, -, -, -, hhi⟩ :=
    run_analysis_ok_elim h
  have hhi' : s.summary.highest_impact_issues =
      (sortDescBy impactKey (allIssues s.issues)).take 3 := hhi
  refine ⟨hhi', ?_, ?_, ?_⟩
  · rw [hhi', List.length_take, sortDescBy_length, allIssues_length, ht]
  · rw [hhi']
    have hs := sortDescBy_pairwise impactKey (allIssues s.issues)
    have htk := List.Pairwise.sublist (List.take_sublist 3 _) hs
    refine htk.imp (fun hxy => ?_)
    have hxy' : ((_ : ℕ) : ℚ) ≤ ((_ : ℕ) : ℚ) := hxy
    exact_mod_cast hxy'
  · intro q
    have := sortDescBy_filter impactKey (allIssues s.issues) (q : ℚ)
    simpa [impactKey, Nat.cast_inj] using this

/-- Witness for C2 over the empty export set. -/
theorem claim_C2_witness :
    (AuditState.mk (Buckets.mk [] [] [] [])
        (Summary.mk 0 0 0 0 0 [])).summary.highest_impact_issues.length =
      min 3 (AuditState.mk (Buckets.mk [] [] [] [])
        (Summary.mk 0 0 0 0 0 [])).summary.total_issues :=
  (claim_C2 initBuckets [] _ rfl).2.1

/-- Claim C10: `run_analysis` is not idempotent on one instance: a second call on
the same instance re-emits every record, so each bucket keeps the first call's
records plus one duplicate of each (a permutation of the first bucket doubled),
each bucket's length doubles, and the summary's `total_issues` doubles. -/
theorem claim_C10 (data : Data) (s1 s2 : AuditState)
    (h1 : run_analysis initBuckets data = .ok s1)
    (h2 : run_analysis s1.issues data = .ok s2) :
    s2.issues.critical.length = 2 * s1.issues.critical.length ∧
    s2.issues.high.length = 2 * s1.issues.high.length ∧
    s2.issues.medium.length = 2 * s1.issues.medium.length ∧
    s2.issues.low.length = 2 * s1.issues.low.length ∧
    s2.summary.total_issues = 2 * s1.summary.total_issues ∧
    s2.issues.critical.Perm (s1.issues.critical ++ s1.issues.critical) ∧
    s2.issues.high.Perm (s1.issues.high ++ s1.issues.high) ∧
    s2.issues.medium.Perm (s1.issues.medium ++ s1.issues.medium) ∧
    s2.issues.low.Perm (s1.issues.low ++ s1.issues.low) := by
  obtain ⟨ec, eh, em, el, a1, a2, a3, a4, b1, b2, b3, b4, t1, -, -, -, -, -⟩ :=
    run_analysis_ok_elim h1
  obtain ⟨ec', eh', em', el', a1', a2', a3', a4', c1, c2, c3, c4, t2, -, -, -, -, -⟩ :=
    run_analysis_ok_elim h2
  cases a1.symm.trans a1'
  cases a2.symm.trans a2'
  cases a3.symm.trans a3'
  cases a4.symm.trans a4'
  have e1 : s1.issues.critical.length = ec.length := by
    rw [b1, sortDescBy_length]; simp [initBuckets]
  have e2 : s1.issues.high.length = eh.length := by
    rw [b2, sortDescBy_length]; simp [initBuckets]
  have e3 : s1.issues.medium.length = em.length := by
    rw [b3, sortDescBy_length]; simp [initBuckets]
  have e4 : s1.issues.low.length = el.length := by
    rw [b4, sortDescBy_length]; simp [initBuckets]
  have l1 : s2.issues.critical.length = 2 * s1.issues.critical.length := by
    rw [c1, sortDescBy_length, List.length_append, e1]; omega
  have l2 : s2.issues.high.length = 2 * s1.issues.high.length := by
    rw [c2, sortDescBy_length, List.length_append, e2]; omega
  have l3 : s2.issues.medium.length = 2 * s1.issues.medium.length := by
    rw [c3, sortDescBy_length, List.length_append, e3]; omega
  have l4 : s2.issues.low.length = 2 * s1.issues.low.length := by
    rw [c4, sortDescBy_length, List.length_append, e4]; omega
  have p1 : ec.Perm s1.issues.critical := by
    rw [b1]
    simpa [initBuckets] using (sortDescBy_perm prioKey (initBuckets.critical ++ ec)).symm
  have p2 : eh.Perm s1.issues.high := by
    rw [b2]
    simpa [initBuckets] using (sortDescBy_perm prioKey (initBuckets.high ++ eh)).symm
  have p3 : em.Perm s1.issues.medium := by
    rw [b3]
    simpa [initBuckets] using (sortDescBy_perm prioKey (initBuckets.medium ++ em)).symm
  have p4 : el.Perm s1.issues.low := by
    rw [b4]
    simpa [initBuckets] using (sortDescBy_perm prioKey (initBuckets.low ++ el)).symm
  refine ⟨l1, l2, l3, l4, ?_, ?_, ?_, ?_, ?_⟩
  · rw [t2, t1, l1, l2, l3, l4]; omega
  · rw [c1]; exact (sortDescBy_perm prioKey _).trans (List.Perm.append_left _ p1)
  · rw [c2]; exact (sortDescBy_perm prioKey _).trans (List.Perm.append_left _ p2)
  · rw [c3]; exact (sortDescBy_perm prioKey _).trans (List.Perm.append_left _ p3)
  · rw [c4]; exact (sortDescBy_perm prioKey _).trans (List.Perm.append_left _ p4)

/-- Witness for C10: two consecutive runs over the empty export set. -/
theorem claim_C10_witness :
    (AuditState.mk (Buckets.mk [] [] [] [])
        (Summary.mk 0 0 0 0 0 [])).summary.total_issues =
      2 * (AuditState.mk (Buckets.mk [] [] [] [])
        (Summary.mk 0 0 0 0 0 [])).summary.total_issues :=
  (claim_C10 [] _ _ rfl rfl).2.2.2.2.1

/-- Helper: `firstOccAux` only returns elements of its input list. -/
theorem firstOccAux_subset {l : List Cell} :
    ∀ {seen x}, x ∈ firstOccAux l seen → x ∈ l := by
  induction l with
  | nil => intro seen x hx; simp [firstOccAux] at hx
  | cons a t ih =>
    intro seen x hx
    unfold firstOccAux at hx
    by_cases ha : a ∈ seen
    · rw [if_pos ha] at hx
      exact List.mem_cons_of_mem a (ih hx)
    · rw [if_neg ha] at hx
      rcases List.mem_cons.1 hx with rfl | hx'
      · exact List.mem_cons_self x t
      · exact List.mem_cons_of_mem a (ih hx')

/-- Helper: every `value_counts` entry pairs an element of the list with its
exact occurrence count. -/
theorem mem_valueCounts {l : List Cell} {p : Cell × Nat} (hp : p ∈ valueCounts l) :
    p.2 = l.count p.1 ∧ p.1 ∈ l := by
  unfold valueCounts at hp
  have hp' := (sortDescBy_perm (fun p : Cell × Nat => (p.2 : ℚ)) _).mem_iff.1 hp
  rcases List.mem_map.1 hp' with ⟨v, hv, rfl⟩
  exact ⟨rfl, firstOccAux_subset hv⟩

/-- Helper: a cell that is not `na` under `cellIsNa`. -/
theorem ne_na_of_not_isNa {x : Cell} (h : cellIsNa x = false) : x ≠ Cell.na := by
  cases x <;> simp [cellIsNa] at h ⊢

/-- Helper: every duplicated title is a non-empty title occurring at least twice
among the rows that survive the dropna. -/
theorem mem_dupTitles {df : DataFrame} {t : Cell} (ht : t ∈ dupTitles df) :
    t ≠ Cell.na ∧ 2 ≤ (titleValues df).count t := by
  unfold dupTitles at ht
  rcases List.mem_map.1 ht with ⟨p, hp, rfl⟩
  rcases List.mem_filter.1 hp with ⟨hpv, hgt⟩
  obtain ⟨hcount, hmem⟩ := mem_valueCounts hpv
  constructor
  · rcases List.mem_map.1 hmem with ⟨r, hr, heq⟩
    rcases List.mem_filter.1 hr with ⟨-, hna⟩
    rw [← heq]
    exact ne_na_of_not_isNa (by simpa using hna)
  · have h1 : 1 < p.2 := by simpa using hgt
    omega

/-- Claim C3: duplicate-title detection drops rows with empty (`NaN`) titles before
counting; every title it counts as duplicated occurs at least twice among the
remaining rows, and the emitted record's count is the number of duplicated title
values — so no included title has a count below 2. -/
theorem claim_C3 (data : Data) (df : DataFrame) (l : List IssueRecord)
    (hdf : List.lookup "page_titles" data = some df)
    (h : analyze_duplicate_titles data = .ok l) :
    titleValues df = (df.rows.filter (fun r => !(cellIsNa (cellAt r "Title 1")))).map
      (fun r => cellAt r "Title 1") ∧
    (∀ t ∈ dupTitles df, t ≠ Cell.na ∧ 2 ≤ (titleValues df).count t) ∧
    (∀ r ∈ l, r.count = (dupTitles df).length) := by
  refine ⟨rfl, fun t ht => ⟨(mem_dupTitles ht).1, (mem_dupTitles ht).2⟩, ?_⟩
  unfold analyze_duplicate_titles at h
  split at h
  · rename_i hnone
    rw [hdf] at hnone
    exact absurd hnone (by simp)
  · rename_i df2 hsome
    rw [hdf] at hsome
    cases hsome
    split at h
    · split at h
      · cases h
        intro r hr
        simp at hr
      · split at h
        · cases h
          intro r hr
          rcases List.mem_singleton.1 hr with rfl
          rfl
        · exact absurd h (by simp)
    · exact absurd h (by simp)

/-- Witness for C3: in the sample table in which two rows share the title
`"Home"`, that title is counted as duplicated with an occurrence count of 2. -/
theorem claim_C3_witness :
    Cell.str "Home" ≠ Cell.na ∧
      2 ≤ (titleValues samplePageTitles).count (Cell.str "Home") :=
  (claim_C3 sampleTitlesData samplePageTitles _ rfl rfl).2.1 (Cell.str "Home") (by decide)

/-- Claim C4: for every loaded-data state, a check whose source table is absent
produces no record and raises no error — it returns exactly the empty emission,
so the severity buckets are left unchanged by that check. -/
theorem claim_C4 (data : Data) :
    (List.lookup "response_codes" data = none → analyze_broken_links data = .ok []) ∧
    (List.lookup "redirect_chains" data = none → analyze_redirect_chains data = .ok []) ∧
    (List.lookup "page_titles" data = none → analyze_duplicate_titles data = .ok []) ∧
    (List.lookup "meta_description" data = none →
      analyze_missing_meta_descriptions data = .ok []) ∧
    (List.lookup "h1" data = none → analyze_missing_h1 data = .ok []) ∧
    (List.lookup "page_speed" data = none → analyze_slow_pages data = .ok []) ∧
    (List.lookup "page_titles" data = none → analyze_title_length data = .ok []) ∧
    (List.lookup "meta_description" data = none →
      analyze_description_length data = .ok []) ∧
    (List.lookup "images" data = none → analyze_missing_alt_text data = .ok []) ∧
    (List.lookup "h1" data = none → analyze_multiple_h1 data = .ok []) := by
  refine ⟨?_, ?_, ?_, ?_, ?_, ?_, ?_, ?_, ?_, ?_⟩ <;> intro h
  · unfold analyze_broken_links; rw [h]
  · unfold analyze_redirect_chains; rw [h]
  · unfold analyze_duplicate_titles; rw [h]
  · unfold analyze_missing_meta_descriptions; rw [h]
  · unfold analyze_missing_h1; rw [h]
  · unfold analyze_slow_pages; rw [h]
  · unfold analyze_title_length; rw [h]
  · unfold analyze_description_length; rw [h]
  · unfold analyze_missing_alt_text; rw [h]
  · unfold analyze_multiple_h1; rw [h]

/-- Witness for C4: with no tables loaded, every check silently produces nothing. -/
theorem claim_C4_witness :
    analyze_broken_links [] = .ok [] ∧ analyze_redirect_chains [] = .ok [] ∧
    analyze_duplicate_titles [] = .ok [] ∧
    analyze_missing_meta_descriptions [] = .ok [] ∧ analyze_missing_h1 [] = .ok [] ∧
    analyze_slow_pages [] = .ok [] ∧ analyze_title_length [] = .ok [] ∧
    analyze_description_length [] = .ok [] ∧ analyze_missing_alt_text [] = .ok [] ∧
    analyze_multiple_h1 [] = .ok [] :=
  ⟨(claim_C4 []).1 rfl, (claim_C4 []).2.1 rfl, (claim_C4 []).2.2.1 rfl,
   (claim_C4 []).2.2.2.1 rfl, (claim_C4 []).2.2.2.2.1 rfl, (claim_C4 []).2.2.2.2.2.1 rfl,
   (claim_C4 []).2.2.2.2.2.2.1 rfl, (claim_C4 []).2.2.2.2.2.2.2.1 rfl,
   (claim_C4 []).2.2.2.2.2.2.2.2.1 rfl, (claim_C4 []).2.2.2.2.2.2.2.2.2 rfl⟩

/-- Claim C5: every record the detector creates has `count ≥ 1` (zero matches
create no record) and at most 5 examples; every check except `duplicate_titles`
takes as examples the `Address` values of the first 5 matching rows in file
order, while `duplicate_titles` takes up to 2 URLs per duplicated title over the
first 5 duplicated titles and truncates the concatenation to 5. -/
theorem claim_C5 (data : Data) :
    (∀ l, emitted_critical data = .ok l → ∀ r ∈ l, 1 ≤ r.count ∧ r.examples.length ≤ 5) ∧
    (∀ l, emitted_high data = .ok l → ∀ r ∈ l, 1 ≤ r.count ∧ r.examples.length ≤ 5) ∧
    (∀ l, emitted_medium data = .ok l → ∀ r ∈ l, 1 ≤ r.count ∧ r.examples.length ≤ 5) ∧
    (∀ l, emitted_low data = .ok l → ∀ r ∈ l, 1 ≤ r.count ∧ r.examples.length ≤ 5) ∧
    (∀ df l, List.lookup "response_codes" data = some df →
      analyze_broken_links data = .ok l → ∀ r ∈ l,
        (r.type = "broken_links" →
          r.examples = ((clientErrorRows df).take 5).map (fun w => cellAt w "Address")) ∧
        (r.type = "server_errors" →
          r.examples = ((serverErrorRows df).take 5).map (fun w => cellAt w "Address"))) ∧
    (∀ df l, List.lookup "redirect_chains" data = some df →
      analyze_redirect_chains data = .ok l → ∀ r ∈ l,
        r.examples = ((redirectChainRows df).take 5).map (fun w => cellAt w "Address")) ∧
    (∀ df l, List.lookup "meta_description" data = some df →
      analyze_missing_meta_descriptions data = .ok l → ∀ r ∈ l,
        r.examples = ((missingMetaRows df).take 5).map (fun w => cellAt w "Address")) ∧
    (∀ df l, List.lookup "h1" data = some df →
      analyze_missing_h1 data = .ok l → ∀ r ∈ l,
        r.examples = ((missingH1Rows df).take 5).map (fun w => cellAt w "Address")) ∧
    (∀ df l, List.lookup "page_speed" data = some df →
      analyze_slow_pages data = .ok l → ∀ r ∈ l,
        r.examples = ((slowPageRows df).take 5).map (fun w => cellAt w "Address")) ∧
    (∀ df l, List.lookup "page_titles" data = some df →
      analyze_title_length data = .ok l → ∀ r ∈ l,
        r.examples = ((longTitleRows df).take 5).map (fun w => cellAt w "Address")) ∧
    (∀ df l, List.lookup "meta_description" data = some df →
      analyze_description_length data = .ok l → ∀ r ∈ l,
        r.examples = ((longDescriptionRows df).take 5).map (fun w => cellAt w "Address")) ∧
    (∀ df l, List.lookup "images" data = some df →
      analyze_missing_alt_text data = .ok l → ∀ r ∈ l,
        r.examples = ((missingAltRows df).take 5).map (fun w => cellAt w "Address")) ∧
    (∀ df l, List.lookup "h1" data = some df →
      analyze_multiple_h1 data = .ok l → ∀ r ∈ l,
        r.examples = ((multipleH1Rows df).take 5).map (fun w => cellAt w "Address")) ∧
    (∀ df l, List.lookup "page_titles" data = some df →
      analyze_duplicate_titles data = .ok l → ∀ r ∈ l,
        r.examples = (((dupTitles df).take 5).flatMap (fun t =>
          (((nonNaTitleRows df).filter (fun w => decide (cellAt w "Title 1" = t))).map
            (fun w => cellAt w "Address")).take 2)).take 5) := by
  refine ⟨?_, ?_, ?_, ?_, ?_, ?_, ?_, ?_, ?_, ?_, ?_, ?_, ?_, ?_⟩
  · intro l h r hr
    exact ⟨(emitted_critical_wellFormed h r hr).2.1, (emitted_critical_wellFormed h r hr).2.2⟩
  · intro l h r hr
    exact ⟨(emitted_high_wellFormed h r hr).2.1, (emitted_high_wellFormed h r hr).2.2⟩
  · intro l h r hr
    exact ⟨(emitted_medium_wellFormed h r hr).2.1, (emitted_medium_wellFormed h r hr).2.2⟩
  · intro l h r hr
    exact ⟨(emitted_low_wellFormed h r hr).2.1, (emitted_low_wellFormed h r hr).2.2⟩
  · intro df l hdf h r hr
    unfold analyze_broken_links at h
    split at h
    · rename_i hnone; rw [hdf] at hnone; exact absurd hnone (by simp)
    · rename_i df2 hsome
      rw [hdf] at hsome; cases hsome
      split at h
      · split at h
        · exact absurd h (by simp)
        · rename_i l1 h1
          split at h
          · exact absurd h (by simp)
          · rename_i l2 h2
            cases h
            rcases List.mem_append.1 hr with hr' | hr'
            · rcases emitFiltered_ok_elim h1 with rfl | ⟨-, rfl⟩
              · simp at hr'
              · rcases List.mem_singleton.1 hr' with rfl
                constructor
                · intro; simp [mkIssue, List.map_take]
                · intro habs; simp [mkIssue] at habs
            · rcases emitFiltered_ok_elim h2 with rfl | ⟨-, rfl⟩
              · simp at hr'
              · rcases List.mem_singleton.1 hr' with rfl
                constructor
                · intro habs; simp [mkIssue] at habs
                · intro; simp [mkIssue, List.map_take]
      · exact absurd h (by simp)
  · intro df l hdf h r hr
    unfold analyze_redirect_chains at h
    split at h
    · rename_i hnone; rw [hdf] at hnone; exact absurd hnone (by simp)
    · rename_i df2 hsome
      rw [hdf] at hsome; cases hsome
      split at h
      · rcases emitFiltered_ok_elim h with rfl | ⟨-, rfl⟩
        · simp at hr
        · rcases List.mem_singleton.1 hr with rfl
          simp [mkIssue, List.map_take]
      · cases h; simp at hr
  · intro df l hdf h r hr
    unfold analyze_missing_meta_descriptions at h
    split at h
    · rename_i hnone; rw [hdf] at hnone; exact absurd hnone (by simp)
    · rename_i df2 hsome
      rw [hdf] at hsome; cases hsome
      split at h
      · rcases emitFiltered_ok_elim h with rfl | ⟨-, rfl⟩
        · simp at hr
        · rcases List.mem_singleton.1 hr with rfl
          simp [mkIssue, List.map_take]
      · exact absurd h (by simp)
  · intro df l hdf h r hr
    unfold analyze_missing_h1 at h
    split at h
    · rename_i hnone; rw [hdf] at hnone; exact absurd hnone (by simp)
    · rename_i df2 hsome
      rw [hdf] at hsome; cases hsome
      split at h
      · rcases emitFiltered_ok_elim h with rfl | ⟨-, rfl⟩
        · simp at hr
        · rcases List.mem_singleton.1 hr with rfl
          simp [mkIssue, List.map_take]
      · exact absurd h (by simp)
  · intro df l hdf h r hr
    unfold analyze_slow_pages at h
    split at h
    · rename_i hnone; rw [hdf] at hnone; exact absurd hnone (by simp)
    · rename_i df2 hsome
      rw [hdf] at hsome; cases hsome
      split at h
      · rcases emitFiltered_ok_elim h with rfl | ⟨-, rfl⟩
        · simp at hr
        · rcases List.mem_singleton.1 hr with rfl
          simp [mkIssue, List.map_take]
      · cases h; simp at hr
  · intro df l hdf h r hr
    unfold analyze_title_length at h
    split at h
    · rename_i hnone; rw [hdf] at hnone; exact absurd hnone (by simp)
    · rename_i df2 hsome
      rw [hdf] at hsome; cases hsome
      split at h
      · rcases emitFiltered_ok_elim h with rfl | ⟨-, rfl⟩
        · simp at hr
        · rcases List.mem_singleton.1 hr with rfl
          simp [mkIssue, List.map_take]
      · exact absurd h (by simp)
  · intro df l hdf h r hr
    unfold analyze_description_length at h
    split at h
    · rename_i hnone; rw [hdf] at hnone; exact absurd hnone (by simp)
    · rename_i df2 hsome
      rw [hdf] at hsome; cases hsome
      split at h
      · rcases emitFiltered_ok_elim h with rfl | ⟨-, rfl⟩
        · simp at hr
        · rcases List.mem_singleton.1 hr with rfl
          simp [mkIssue, List.map_take]
      · exact absurd h (by simp)
  · intro df l hdf h r hr
    unfold analyze_missing_alt_text at h
    split at h
    · rename_i hnone; rw [hdf] at hnone; exact absurd hnone (by simp)
    · rename_i df2 hsome
      rw [hdf] at hsome; cases hsome
      split at h
      · rcases emitFiltered_ok_elim h with rfl | ⟨-, rfl⟩
        · simp at hr
        · rcases List.mem_singleton.1 hr with rfl
          simp [mkIssue, List.map_take]
      · exact absurd h (by simp)
  · intro df l hdf h r hr
    unfold analyze_multiple_h1 at h
    split at h
    · rename_i hnone; rw [hdf] at hnone; exact absurd hnone (by simp)
    · rename_i df2 hsome
      rw [hdf] at hsome; cases hsome
      split at h
      · rcases emitFiltered_ok_elim h with rfl | ⟨-, rfl⟩
        · simp at hr
        · rcases List.mem_singleton.1 hr with rfl
          simp [mkIssue, List.map_take]
      · cases h; simp at hr
  · intro df l hdf h r hr
    unfold analyze_duplicate_titles at h
    split at h
    · rename_i hnone; rw [hdf] at hnone; exact absurd hnone (by simp)
    · rename_i df2 hsome
      rw [hdf] at hsome; cases hsome
      split at h
      · split at h
        · cases h; simp at hr
        · split at h
          · cases h
            rcases List.mem_singleton.1 hr with rfl
            simp [mkIssue, dupTitleExamples]
          · exact absurd h (by simp)
      · exact absurd h (by simp)

/-- Witness for C5: the duplicate-titles check over `sampleTitlesData` emits one
record with a positive count and at most five examples. -/
theorem claim_C5_witness :
    1 ≤ (mkIssue "duplicate_titles" "Duplicate Page Titles"
      "Multiple pages using the same title" (dupTitles samplePageTitles).length
      (dupTitleExamples samplePageTitles)
      "Create unique page titles to improve SEO and user experience").count ∧
    (mkIssue "duplicate_titles" "Duplicate Page Titles"
      "Multiple pages using the same title" (dupTitles samplePageTitles).length
      (dupTitleExamples samplePageTitles)
      "Create unique page titles to improve SEO and user experience").examples.length ≤ 5 :=
  (claim_C5 sampleTitlesData).1 _ rfl _ (List.mem_singleton.2 rfl)

/-- Claim C9: when a check's source table is loaded but lacks the condition column,
behaviour is asymmetric: `analyze_redirect_chains`, `analyze_slow_pages` and
`analyze_multiple_h1` test for their column and silently produce nothing, while the
remaining checks read the column unguarded and raise a `KeyError` naming it. -/
theorem claim_C9 (data : Data) (df : DataFrame) :
    (List.lookup "redirect_chains" data = some df → "Redirect Chain" ∉ df.columns →
      analyze_redirect_chains data = .ok []) ∧
    (List.lookup "page_speed" data = some df → "Page Load Time (Seconds)" ∉ df.columns →
      analyze_slow_pages data = .ok []) ∧
    (List.lookup "h1" data = some df → "H1-2" ∉ df.columns →
      analyze_multiple_h1 data = .ok []) ∧
    (List.lookup "response_codes" data = some df → "Status Code" ∉ df.columns →
      analyze_broken_links data = .error "Status Code") ∧
    (List.lookup "page_titles" data = some df → "Title 1" ∉ df.columns →
      analyze_duplicate_titles data = .error "Title 1") ∧
    (List.lookup "page_titles" data = some df → "Title 1" ∉ df.columns →
      analyze_title_length data = .error "Title 1") ∧
    (List.lookup "meta_description" data = some df → "Meta Description 1" ∉ df.columns →
      analyze_missing_meta_descriptions data = .error "Meta Description 1") ∧
    (List.lookup "meta_description" data = some df → "Meta Description 1" ∉ df.columns →
      analyze_description_length data = .error "Meta Description 1") ∧
    (List.lookup "h1" data = some df → "H1-1" ∉ df.columns →
      analyze_missing_h1 data = .error "H1-1") ∧
    (List.lookup "images" data = some df → "Alt Text" ∉ df.columns →
      analyze_missing_alt_text data = .error "Alt Text") := by
  refine ⟨?_, ?_, ?_, ?_, ?_, ?_, ?_, ?_, ?_, ?_⟩ <;> intro hdf hcol
  · simp [analyze_redirect_chains, hdf, hcol]
  · simp [analyze_slow_pages, hdf, hcol]
  · simp [analyze_multiple_h1, hdf, hcol]
  · simp [analyze_broken_links, hdf, hcol]
  · simp [analyze_duplicate_titles, hdf, hcol]
  · simp [analyze_title_length, hdf, hcol]
  · simp [analyze_missing_meta_descriptions, hdf, hcol]
  · simp [analyze_description_length, hdf, hcol]
  · simp [analyze_missing_h1, hdf, hcol]
  · simp [analyze_missing_alt_text, hdf, hcol]

/-- Witness for C9: over address-only tables, the guarded redirect-chain check
produces nothing while the broken-links check raises on its missing column. -/
theorem claim_C9_witness :
    analyze_redirect_chains sampleBareData = .ok [] ∧
    analyze_broken_links sampleBareData = .error "Status Code" :=
  ⟨(claim_C9 sampleBareData sampleBareDF).1 rfl (by decide),
   (claim_C9 sampleBareData sampleBareDF).2.2.2.1 rfl (by decide)⟩

/-- Claim C8: each per-bucket Excel sheet has exactly one row per (issue, example)
pair — an issue contributes one row per entry of its `examples` list, each row
repeating the issue's title, scores and recommendation, so a bucket holding one
issue with 3 examples yields exactly 3 rows — and a sheet is present only for a
non-empty bucket. -/
theorem claim_C8 (b : Buckets) (bl : List IssueRecord) (i : IssueRecord) :
    (bucketRows bl).length = (bl.map (fun r => r.examples.length)).sum ∧
    bucketRows [i] = issueRows i ∧
    (issueRows i).length = i.examples.length ∧
    (∀ row ∈ issueRows i, row.issue_type = i.title ∧ row.impact = i.impact ∧
      row.effort = i.effort ∧ row.priority_score = i.priority_score ∧
      row.recommendation = i.recommendation) ∧
    (i.examples.length = 3 → (bucketRows [i]).length = 3) ∧
    (∀ rows, ("Critical", rows) ∈ generate_excel_sheets b → b.critical ≠ []) ∧
    (∀ rows, ("High", rows) ∈ generate_excel_sheets b → b.high ≠ []) ∧
    (∀ rows, ("Medium", rows) ∈ generate_excel_sheets b → b.medium ≠ []) ∧
    (∀ rows, ("Low", rows) ∈ generate_excel_sheets b → b.low ≠ []) := by
  have hlen : ∀ l : List IssueRecord,
      (bucketRows l).length = (l.map (fun r => r.examples.length)).sum := by
    intro l
    have hco : (List.length ∘ issueRows) = fun r : IssueRecord => r.examples.length := by
      funext r; simp [issueRows]
    simp [bucketRows, List.length_flatMap, hco]
  refine ⟨hlen bl, by simp [bucketRows], by simp [issueRows], ?_, ?_, ?_, ?_, ?_, ?_⟩
  · intro row hrow
    rcases List.mem_map.1 hrow with ⟨ex, -, rfl⟩
    exact ⟨rfl, rfl, rfl, rfl, rfl⟩
  · intro h3
    rw [hlen [i]]
    simp [h3]
  · intro rows hmem hempty
    simp [generate_excel_sheets, hempty] at hmem
  · intro rows hmem hempty
    simp [generate_excel_sheets, hempty] at hmem
  · intro rows hmem hempty
    simp [generate_excel_sheets, hempty] at hmem
  · intro rows hmem hempty
    simp [generate_excel_sheets, hempty] at hmem

/-- Witness for C8: a bucket holding one issue with 3 examples yields 3 rows. -/
theorem claim_C8_witness :
    (bucketRows [mkIssue "broken_links" "Broken Links (4xx)"
      "Pages returning client error status codes" 3
      [Cell.str "https://a/1", Cell.str "https://a/2", Cell.str "https://a/3"]
      "Fix or redirect broken links to maintain user experience and link equity"]).length
      = 3 :=
  (claim_C8 initBuckets [] (mkIssue "broken_links" "Broken Links (4xx)"
      "Pages returning client error status codes" 3
      [Cell.str "https://a/1", Cell.str "https://a/2", Cell.str "https://a/3"]
      "Fix or redirect broken links to maintain user experience and link equity")).2.2.2.2.1
    rfl

/-- Helper: with enough fuel, the polling loop returns `true` exactly when some
poll within the timeout reports `FINISHED` and every earlier poll (from the
current iteration on) reported a non-terminal status. -/
theorem waitLoop_fst_true_iff (g : Nat → Option String) (i t : Nat) (hi : 0 < i) :
    ∀ fuel k, t / i + 2 ≤ fuel + k →
      ((waitLoop g i t fuel k).1 = true ↔
        ∃ m, k ≤ m ∧ m * i ≤ t ∧ g m = some "FINISHED" ∧
          ∀ j, k ≤ j → j < m → ∃ s, g j = some s ∧ s ≠ "FINISHED" ∧ s ≠ "FAILED" ∧
            s ≠ "STOPPED" ∧ s ≠ "INTERRUPTED") := by
  intro fuel
  induction fuel with
  | zero =>
    intro k hk
    simp only [waitLoop]
    constructor
    · intro hfalse; exact absurd hfalse (by simp)
    · rintro ⟨m, hkm, hmt, -, -⟩
      exfalso
      have h2 : t < (t / i + 1) * i := (Nat.div_lt_iff_lt_mul hi).1 (Nat.lt_succ_self _)
      have h3 : (t / i + 1) * i ≤ k * i := Nat.mul_le_mul_right i (by omega)
      have h4 : k * i ≤ m * i := Nat.mul_le_mul_right i hkm
      omega
  | succ fuel ih =>
    intro k hk
    simp only [waitLoop]
    by_cases ht : t < k * i
    · rw [if_pos ht]
      constructor
      · intro hfalse; exact absurd hfalse (by simp)
      · rintro ⟨m, hkm, hmt, -, -⟩
        have h4 : k * i ≤ m * i := Nat.mul_le_mul_right i hkm
        omega
    · rw [if_neg ht]
      cases hg : g k with
      | none =>
        constructor
        · intro hfalse; exact absurd hfalse (by simp)
        · rintro ⟨m, hkm, hmt, hfin, hpre⟩
          rcases Nat.eq_or_lt_of_le hkm with rfl | hlt
          · rw [hg] at hfin; exact absurd hfin (by simp)
          · obtain ⟨s, hs, -⟩ := hpre k le_rfl hlt
            rw [hg] at hs; exact absurd hs (by simp)
      | some s =>
        show ((if s = "FINISHED" then (true, k + 1)
          else if s ∈ ["FAILED", "STOPPED", "INTERRUPTED"] then (false, k + 1)
          else waitLoop g i t fuel (k + 1)).1 = true) ↔ _
        by_cases hf : s = "FINISHED"
        · subst hf
          rw [if_pos rfl]
          constructor
          · intro _h
            exact ⟨k, le_rfl, by omega, hg, fun j hj hjk => absurd hjk (by omega)⟩
          · intro _h; rfl
        · rw [if_neg hf]
          by_cases hfail : s ∈ ["FAILED", "STOPPED", "INTERRUPTED"]
          · rw [if_pos hfail]
            constructor
            · intro hfalse; exact absurd hfalse (by simp)
            · rintro ⟨m, hkm, hmt, hfin, hpre⟩
              rcases Nat.eq_or_lt_of_le hkm with rfl | hlt
              · rw [hg] at hfin
                exact (hf (by simpa using hfin)).elim
              · obtain ⟨s', hs', -, h2, h3, h4⟩ := hpre k le_rfl hlt
                rw [hg] at hs'
                have hss : s = s' := by simpa using hs'
                subst hss
                simp at hfail
                rcases hfail with rfl | rfl | rfl
                · exact (h2 rfl).elim
                · exact (h3 rfl).elim
                · exact (h4 rfl).elim
          · rw [if_neg hfail]
            rw [ih (k + 1) (by omega)]
            constructor
            · rintro ⟨m, hk1m, hmt, hfin, hpre⟩
              refine ⟨m, by omega, hmt, hfin, fun j hj hjm => ?_⟩
              rcases Nat.eq_or_lt_of_le hj with rfl | hj'
              · refine ⟨s, hg, hf, ?_, ?_, ?_⟩ <;>
                  (intro habs; subst habs; simp at hfail)
              · exact hpre j (by omega) hjm
            · rintro ⟨m, hkm, hmt, hfin, hpre⟩
              have hkm' : k < m := by
                rcases Nat.eq_or_lt_of_le hkm with rfl | h'
                · rw [hg] at hfin
                  exact absurd (by simpa using hfin : s = "FINISHED") hf
                · exact h'
              exact ⟨m, by omega, hmt, hfin, fun j hj hjm => hpre j (by omega) hjm⟩

/-- Claim C6: `wait_for_crawl_completion`, polling at the default 10s interval with
the default 3600s timeout, succeeds exactly when some poll within the timeout
reports `FINISHED` with only non-terminal statuses before it; on the sequence
`[STARTED, STARTED, FINISHED]` it returns `True` after exactly 3 polls; it returns
`False` when the first terminal poll is `FAILED`/`STOPPED`/`INTERRUPTED`, when a
poll degrades to `None` (transport error or non-2xx), and when only non-terminal
statuses are seen until the timeout. -/
theorem claim_C6 (g : Nat → Option String) :
    wait_for_crawl_completion
      (fun k => [some "STARTED", some "STARTED", some "FINISHED"].getD k none) 10 3600 =
      (true, 3) ∧
    ((wait_for_crawl_completion g 10 3600).1 = true ↔
      ∃ m, m * 10 ≤ 3600 ∧ g m = some "FINISHED" ∧
        ∀ j < m, ∃ s, g j = some s ∧ s ≠ "FINISHED" ∧ s ≠ "FAILED" ∧ s ≠ "STOPPED" ∧
          s ≠ "INTERRUPTED") ∧
    ((∀ k, g k = some "STARTED") → (wait_for_crawl_completion g 10 3600).1 = false) ∧
    (g 0 = none → (wait_for_crawl_completion g 10 3600).1 = false) ∧
    (∀ s, s ∈ (["FAILED", "STOPPED", "INTERRUPTED"] : List String) → g 0 = some s →
      (wait_for_crawl_completion g 10 3600).1 = false) := by
  have hchar := waitLoop_fst_true_iff g 10 3600 (by norm_num) (3600 / 10 + 2) 0 (by omega)
  have hw : (wait_for_crawl_completion g 10 3600).1 = true ↔
      ∃ m, 0 ≤ m ∧ m * 10 ≤ 3600 ∧ g m = some "FINISHED" ∧
        ∀ j, 0 ≤ j → j < m → ∃ s, g j = some s ∧ s ≠ "FINISHED" ∧ s ≠ "FAILED" ∧
          s ≠ "STOPPED" ∧ s ≠ "INTERRUPTED" := hchar
  refine ⟨rfl, ?_, ?_, ?_, ?_⟩
  · rw [hw]
    constructor
    · rintro ⟨m, -, hmt, hfin, hpre⟩
      exact ⟨m, hmt, hfin, fun j hj => hpre j (Nat.zero_le j) hj⟩
    · rintro ⟨m, hmt, hfin, hpre⟩
      exact ⟨m, Nat.zero_le m, hmt, hfin, fun j _ hj => hpre j hj⟩
  · intro hall
    rw [Bool.eq_false_iff]
    intro htrue
    obtain ⟨m, -, -, hfin, -⟩ := hw.1 htrue
    rw [hall m] at hfin
    exact absurd hfin (by simp)
  · intro h0
    rw [Bool.eq_false_iff]
    intro htrue
    obtain ⟨m, -, -, hfin, hpre⟩ := hw.1 htrue
    rcases Nat.eq_zero_or_pos m with rfl | hm
    · rw [h0] at hfin; exact absurd hfin (by simp)
    · obtain ⟨s, hs, -⟩ := hpre 0 (Nat.zero_le 0) hm
      rw [h0] at hs; exact absurd hs (by simp)
  · intro s hsmem h0
    rw [Bool.eq_false_iff]
    intro htrue
    obtain ⟨m, -, -, hfin, hpre⟩ := hw.1 htrue
    rcases Nat.eq_zero_or_pos m with rfl | hm
    · rw [h0] at hfin
      have : s = "FINISHED" := by simpa using hfin
      subst this
      simp at hsmem
    · obtain ⟨s', hs', -, h2, h3, h4⟩ := hpre 0 (Nat.zero_le 0) hm
      rw [h0] at hs'
      have : s = s' := by simpa using hs'
      subst this
      simp at hsmem
      rcases hsmem with rfl | rfl | rfl
      · exact h2 rfl
      · exact h3 rfl
      · exact h4 rfl

/-- Witness for C6: an endless `STARTED` sequence times out to failure, and the
three-poll sequence succeeds after exactly three polls. -/
theorem claim_C6_witness :
    (wait_for_crawl_completion (fun _ => some "STARTED") 10 3600).1 = false :=
  (claim_C6 (fun _ => some "STARTED")).2.2.1 (fun _ => rfl)

/-- Helper: keys present after a dict upsert. -/
theorem mem_keys_dictUpsert {k v x : String} {l : List (String × String)}
    (hx : x ∈ (dictUpsert k v l).map Prod.fst) : x = k ∨ x ∈ l.map Prod.fst := by
  induction l with
  | nil => simpa [dictUpsert] using hx
  | cons p t ih =>
    obtain ⟨k', v'⟩ := p
    unfold dictUpsert at hx
    by_cases he : k' = k
    · rw [if_pos he] at hx
      simp only [List.map_cons, List.mem_cons] at hx ⊢
      tauto
    · rw [if_neg he] at hx
      simp only [List.map_cons, List.mem_cons] at hx ⊢
      rcases hx with rfl | hx'
      · exact Or.inr (Or.inl rfl)
      · tauto

/-- Helper: a dict upsert preserves key distinctness. -/
theorem nodup_keys_dictUpsert {k v : String} {l : List (String × String)}
    (h : (l.map Prod.fst).Nodup) : ((dictUpsert k v l).map Prod.fst).Nodup := by
  induction l with
  | nil => simp [dictUpsert]
  | cons p t ih =>
    obtain ⟨k', v'⟩ := p
    rw [List.map_cons, List.nodup_cons] at h
    unfold dictUpsert
    by_cases he : k' = k
    · rw [if_pos he]
      rw [List.map_cons, List.nodup_cons]
      exact ⟨he ▸ h.1, h.2⟩
    · rw [if_neg he]
      rw [List.map_cons, List.nodup_cons]
      refine ⟨fun hk' => ?_, ih h.2⟩
      rcases mem_keys_dictUpsert hk' with rfl | hmem
      · exact he rfl
      · exact h.1 hmem

/-- Helper: one discovery step preserves key distinctness. -/
theorem nodup_keys_matchStep {acc : List (String × String)} {fn : String}
    (h : (acc.map Prod.fst).Nodup) : ((matchStep acc fn).map Prod.fst).Nodup := by
  unfold matchStep
  split
  · split
    · exact nodup_keys_dictUpsert h
    · exact h
  · exact h

theorem nodup_keys_foldl_matchStep (names : List String) :
    ∀ acc, (acc.map Prod.fst).Nodup →
      ((List.foldl matchStep acc names).map Prod.fst).Nodup := by
  induction names with
  | nil => intro acc h; simpa using h
  | cons fn t ih =>
    intro acc h
    simpa using ih (matchStep acc fn) (nodup_keys_matchStep h)

/-- Helper: `self.files` never records two tables under one key. -/
theorem matchedFiles_keys_nodup (names : List String) :
    ((matchedFiles names).map Prod.fst).Nodup :=
  nodup_keys_foldl_matchStep names [] (by simp)

theorem lookup_loadTables_none (fs : FileSys) {files : List (String × String)}
    {k : String} (h : k ∉ files.map Prod.fst) :
    List.lookup k (loadTables fs files) = none := by
  induction files with
  | nil => rfl
  | cons p t ih =>
    obtain ⟨k', p'⟩ := p
    rw [List.map_cons, List.mem_cons] at h
    push_neg at h
    unfold loadTables
    cases htp : tryParse fs p' with
    | some df =>
      simp only [List.lookup]
      have hb : (k == k') = false := by simpa using h.1
      rw [hb]
      exact ih h.2
    | none => exact ih h.2

/-- Helper: looking a key up in the loaded tables is looking it up among the
matched files and then parsing, provided the keys are distinct. -/
theorem lookup_loadTables (fs : FileSys) {files : List (String × String)}
    (hnd : (files.map Prod.fst).Nodup) (k : String) :
    List.lookup k (loadTables fs files) = (List.lookup k files).bind (tryParse fs) := by
  induction files with
  | nil => rfl
  | cons p t ih =>
    obtain ⟨k', p'⟩ := p
    rw [List.map_cons, List.nodup_cons] at hnd
    unfold loadTables
    by_cases hk : k = k'
    · subst hk
      cases htp : tryParse fs p' with
      | some df => simp [List.lookup, htp]
      | none => simp [List.lookup, htp, lookup_loadTables_none fs hnd.1]
    · have hb : (k == k') = false := by simpa using hk
      cases htp : tryParse fs p' with
      | some df =>
        simp only [List.lookup, hb]
        rw [ih hnd.2]
      | none =>
        simp only [List.lookup, hb]
        rw [ih hnd.2]

/-- Claim C7: `load_files` returns `True` whenever the directory listing succeeds,
even if some or all matched files fail to parse: each matched file is parsed with
UTF-8 first, retried with latin-1 on failure, and skipped (absent from the loaded
tables) when both fail; `load_files` returns `False` only when the listing itself
raises. -/
theorem claim_C7 (fs : FileSys) :
    (∀ e, fs.listing = .error e → load_files fs = (false, [])) ∧
    (∀ names, fs.listing = .ok names →
      (load_files fs).1 = true ∧
      (load_files fs).2 = loadTables fs (matchedFiles names) ∧
      (∀ k p, List.lookup k (matchedFiles names) = some p →
        (∀ df, fs.parse_utf8 p = .ok df →
          List.lookup k (load_files fs).2 = some df) ∧
        (∀ e df, fs.parse_utf8 p = .error e → fs.parse_latin1 p = .ok df →
          List.lookup k (load_files fs).2 = some df) ∧
        (∀ e e', fs.parse_utf8 p = .error e → fs.parse_latin1 p = .error e' →
          List.lookup k (load_files fs).2 = none))) := by
  constructor
  · intro e he
    unfold load_files
    rw [he]
  · intro names hn
    have hl : load_files fs = (true, loadTables fs (matchedFiles names)) := by
      unfold load_files
      rw [hn]
    refine ⟨by rw [hl], by rw [hl], ?_⟩
    intro k p hkp
    have hlook : List.lookup k (load_files fs).2 = tryParse fs p := by
      rw [hl]
      show List.lookup k (loadTables fs (matchedFiles names)) = tryParse fs p
      rw [lookup_loadTables fs (matchedFiles_keys_nodup names) k, hkp]
      rfl
    refine ⟨?_, ?_, ?_⟩
    · intro df hdf
      rw [hlook]
      unfold tryParse
      rw [hdf]
    · intro e df he hdf
      rw [hlook]
      unfold tryParse
      rw [he, hdf]
    · intro e e' he he'
      rw [hlook]
      unfold tryParse
      rw [he, he']

/-- Witness for C7: a failing listing yields `(False, {})`; a listing with one
matching export that parses only under latin-1 still returns `True` and loads the
table under its logical name. -/
theorem claim_C7_witness :
    load_files sampleBrokenFileSys = (false, []) ∧
    (load_files sampleFileSys).1 = true ∧
    List.lookup "response_codes" (load_files sampleFileSys).2 = some sampleBareDF :=
  ⟨(claim_C7 sampleBrokenFileSys).1 "No such directory" rfl,
   ((claim_C7 sampleFileSys).2 _ rfl).1,
   (((claim_C7 sampleFileSys).2 _ rfl).2.2 "response_codes" "response_codes.csv"
       rfl).2.1 "utf-8 decode error" sampleBareDF rfl rfl⟩
